import Mathlib

/-!
# Control-stream handler of a tunnel connection (connection/control.go)

A shallow embedding of `controlStream`, `NewControlStream`,
`ServeControlStream` and `IsStopped`.  The handler is stateful and talks to
collaborators that live outside the file (the RPC client, the connected fuse,
the observer, the Go runtime's `select`); an invocation is therefore modelled
as a function from the handler and the behaviour of those collaborators to a
`Run`: the ordered list of steps taken (each with a snapshot of the handler at
the moment the step starts), the handler as it is left, and how the invocation
ended.
-/

namespace connection

/-! ## Types declared outside control.go -/

/-- Modelled from the spec: the error value of the RPC layer; only its identity matters. -/
abbrev Error := String

/-- Modelled from the spec: a context.Context, known here by its identity. -/
abbrev Context := Nat

/-- Modelled from the spec: the io.ReadWriteCloser handed to the handler, known by its identity. -/
abbrev Stream := Nat

/-- Modelled from the spec: a zerolog logger, known by its identity. -/
abbrev Logger := Nat

/-- Modelled from the spec: the one-shot readiness latch, known by its identity. -/
abbrev ConnectedFuse := Nat

/-- Modelled from the spec: the tunnel identity and configuration, known by its identity. -/
abbrev NamedTunnelConfig := Nat

/-- Modelled from the spec: the connection options passed through to registration. -/
abbrev ConnectionOptions := Nat

/-- Modelled from the spec: the receive-only channel on which graceful shutdown is announced. -/
abbrev ShutdownChan := Nat

/-- A time.Duration: a signed count of nanoseconds. -/
abbrev Duration := Int

/-- Modelled from the spec: the event sink; control.go reads its field log and calls
sendUnregisteringEvent on it. -/
structure Observer where
  id : Nat
  log : Logger
  deriving DecidableEq, Repr

/-- Modelled from the spec: the RPC client capability (interface NamedTunnelRPCClient).  A client
is known by its identity; RegisterConnection reports an optional error and GracefulShutdown may
report something that control.go never looks at.  Close takes no argument and reports nothing the
handler reads, so it appears only as a step of the run. -/
structure NamedTunnelRPCClient where
  id : Nat
  RegisterConnection :
    Context → NamedTunnelConfig → ConnectionOptions → Nat → Observer → Option Error
  GracefulShutdown : Context → Duration → Option Error

/-- RPCClientFunc derives a named tunnel rpc client (control.go line 14). -/
abbrev RPCClientFunc := Context → Stream → Logger → NamedTunnelRPCClient

/-! ## The handler -/

/-- The struct controlStream (control.go lines 16-28); connIndex is a uint8. -/
structure controlStream where
  observer : Observer
  connectedFuse : ConnectedFuse
  namedTunnelConfig : NamedTunnelConfig
  connIndex : Nat
  newRPCClientFunc : RPCClientFunc
  gracefulShutdownC : ShutdownChan
  gracePeriod : Duration
  stoppedGracefully : Bool

/-- NewControlStream (control.go lines 37-58).  A nil factory is none; the package's default
factory newRegistrationRPCClient is declared outside the file and is the first parameter.  The
struct literal does not mention stoppedGracefully, which therefore has Go's zero value false. -/
def NewControlStream (newRegistrationRPCClient : RPCClientFunc)
    (observer : Observer) (connectedFuse : ConnectedFuse)
    (namedTunnelConfig : NamedTunnelConfig) (connIndex : Nat)
    (newRPCClientFunc : Option RPCClientFunc)
    (gracefulShutdownC : ShutdownChan) (gracePeriod : Duration) : controlStream :=
  let newRPCClientFunc : RPCClientFunc :=
    match newRPCClientFunc with
    | none => newRegistrationRPCClient
    | some f => f
  { observer := observer
    connectedFuse := connectedFuse
    namedTunnelConfig := namedTunnelConfig
    newRPCClientFunc := newRPCClientFunc
    connIndex := connIndex
    gracefulShutdownC := gracefulShutdownC
    gracePeriod := gracePeriod
    stoppedGracefully := false }

/-- IsStopped (control.go lines 87-89). -/
def IsStopped (c : controlStream) : Bool :=
  c.stoppedGracefully

/-! ## The select statement -/

/-- The two cases of the select at control.go lines 74-79. -/
inductive SelectCase where
  | ctxDone
  | gracefulShutdownC
  deriving DecidableEq, Repr

/-- What the Go runtime sees when the select is resolved: which of the two channels can be
received from at that moment, and the case it picks when both can (Go picks one of the ready
cases by a uniform pseudo-random choice). -/
structure Runtime where
  ctxDoneReady : Bool
  shutdownReady : Bool
  pick : SelectCase
  deriving DecidableEq, Repr

/-- The case taken by the select, or none when neither channel ever becomes ready and the
goroutine stays blocked. -/
def selectWait (rt : Runtime) : Option SelectCase :=
  match rt.ctxDoneReady, rt.shutdownReady with
  | false, false => none
  | true, false => some SelectCase.ctxDone
  | false, true => some SelectCase.gracefulShutdownC
  | true, true => some rt.pick

/-! ## Runs of ServeControlStream -/

/-- The steps of ServeControlStream that are visible outside the function body: the calls on
collaborators, with their arguments, and the one field write. -/
inductive Action where
  | newRPCClientFunc (ctx : Context) (rw : Stream) (log : Logger)
  | RegisterConnection (client : Nat) (ctx : Context) (config : NamedTunnelConfig)
      (connOptions : ConnectionOptions) (connIndex : Nat) (observer : Observer)
  | Connected (fuse : ConnectedFuse)
  | selectWait (ctx : Context) (gracefulShutdownC : ShutdownChan)
  | setStoppedGracefully (value : Bool)
  | sendUnregisteringEvent (observer : Observer) (connIndex : Nat)
  | GracefulShutdown (client : Nat) (ctx : Context) (gracePeriod : Duration)
  | logUnregistered (log : Logger) (connIndex : Nat)
  | Close (client : Nat)
  deriving DecidableEq, Repr

/-- The kind of a step, forgetting its arguments. -/
inductive Kind where
  | newRPCClientFunc
  | RegisterConnection
  | Connected
  | selectWait
  | setStoppedGracefully
  | sendUnregisteringEvent
  | GracefulShutdown
  | logUnregistered
  | Close
  deriving DecidableEq, Repr

/-- The kind of an action. -/
def Action.kind : Action → Kind
  | Action.newRPCClientFunc _ _ _ => Kind.newRPCClientFunc
  | Action.RegisterConnection _ _ _ _ _ _ => Kind.RegisterConnection
  | Action.Connected _ => Kind.Connected
  | Action.selectWait _ _ => Kind.selectWait
  | Action.setStoppedGracefully _ => Kind.setStoppedGracefully
  | Action.sendUnregisteringEvent _ _ => Kind.sendUnregisteringEvent
  | Action.GracefulShutdown _ _ _ => Kind.GracefulShutdown
  | Action.logUnregistered _ _ => Kind.logUnregistered
  | Action.Close _ => Kind.Close

/-- The steps that are calls on a collaborator (RPC client, fuse, shutdown trigger, observer):
every step but the construction of the client and the write of the handler's own field. -/
def Kind.isCollaboratorCall : Kind → Bool
  | Kind.newRPCClientFunc => false
  | Kind.setStoppedGracefully => false
  | _ => true

/-- One step of a run: the action, and the handler as it stands when the action starts. -/
structure Step where
  action : Action
  c : controlStream

/-- How an invocation ends: it returns an optional error, or it stays blocked in the select. -/
inductive Outcome where
  | returned (err : Option Error)
  | blocked
  deriving DecidableEq, Repr

/-- A run of ServeControlStream. -/
structure Run where
  trace : List Step
  final : controlStream
  outcome : Outcome

/-- The actions of a run, in order. -/
def Run.calls (r : Run) : List Action :=
  r.trace.map Step.action

/-- The kinds of the actions of a run, in order. -/
def Run.kinds (r : Run) : List Kind :=
  r.trace.map (fun s => s.action.kind)

/-- The value IsStopped would return at the start of each step of a run, in order. -/
def Run.observations (r : Run) : List Bool :=
  r.trace.map (fun s => IsStopped s.c)

/-- Lines 81-84 of control.go followed by the deferred Close of line 66: the unregistering
event, the GracefulShutdown call whose report is dropped, the completion log, return nil. -/
def unregister (c : controlStream) (rpcClient : NamedTunnelRPCClient) (ctx : Context)
    (done : List Step) : Run :=
  let _ := rpcClient.GracefulShutdown ctx c.gracePeriod
  { trace := done ++
      [ ⟨Action.sendUnregisteringEvent c.observer c.connIndex, c⟩,
        ⟨Action.GracefulShutdown rpcClient.id ctx c.gracePeriod, c⟩,
        ⟨Action.logUnregistered c.observer.log c.connIndex, c⟩,
        ⟨Action.Close rpcClient.id, c⟩ ]
    final := c
    outcome := Outcome.returned none }

/-- ServeControlStream (control.go lines 60-85). -/
def ServeControlStream (c : controlStream) (rt : Runtime)
    (ctx : Context) (rw : Stream) (connOptions : ConnectionOptions) : Run :=
  let rpcClient := c.newRPCClientFunc ctx rw c.observer.log
  let registering : List Step :=
    [ ⟨Action.newRPCClientFunc ctx rw c.observer.log, c⟩,
      ⟨Action.RegisterConnection rpcClient.id ctx c.namedTunnelConfig connOptions
        c.connIndex c.observer, c⟩ ]
  match rpcClient.RegisterConnection ctx c.namedTunnelConfig connOptions c.connIndex
      c.observer with
  | some err =>
    { trace := registering ++ [⟨Action.Close rpcClient.id, c⟩]
      final := c
      outcome := Outcome.returned (some err) }
  | none =>
    let waiting : List Step :=
      registering ++
        [ ⟨Action.Connected c.connectedFuse, c⟩,
          ⟨Action.selectWait ctx c.gracefulShutdownC, c⟩ ]
    match selectWait rt with
    | none => { trace := waiting, final := c, outcome := Outcome.blocked }
    | some SelectCase.ctxDone => unregister c rpcClient ctx waiting
    | some SelectCase.gracefulShutdownC =>
      unregister { c with stoppedGracefully := true } rpcClient ctx
        (waiting ++ [⟨Action.setStoppedGracefully true, c⟩])

/-- What RegisterConnection reports in an invocation: the call of line 68, on the client the
handler's factory returns for this context and stream. -/
def registerResult (c : controlStream) (ctx : Context) (rw : Stream)
    (connOptions : ConnectionOptions) : Option Error :=
  (c.newRPCClientFunc ctx rw c.observer.log).RegisterConnection ctx c.namedTunnelConfig
    connOptions c.connIndex c.observer

/-- The identity of the client the handler's factory returns in an invocation. -/
def clientOf (c : controlStream) (ctx : Context) (rw : Stream) : Nat :=
  (c.newRPCClientFunc ctx rw c.observer.log).id

/-- Two handlers agree on every field other than stoppedGracefully. -/
def sameConfig (a b : controlStream) : Prop :=
  a.observer = b.observer ∧ a.connectedFuse = b.connectedFuse ∧
  a.namedTunnelConfig = b.namedTunnelConfig ∧ a.connIndex = b.connIndex ∧
  a.newRPCClientFunc = b.newRPCClientFunc ∧ a.gracefulShutdownC = b.gracefulShutdownC ∧
  a.gracePeriod = b.gracePeriod

/-- The handler with the GracefulShutdown behaviour of every client its factory returns replaced
by g; everything else is kept. -/
def withShutdown (c : controlStream) (g : Context → Duration → Option Error) :
    controlStream :=
  { c with
    newRPCClientFunc := fun ctx rw log =>
      { c.newRPCClientFunc ctx rw log with GracefulShutdown := g } }

/-! ## Test doubles -/

/-- A client double: registration reports the given result, graceful shutdown the other. -/
def mockClient (id : Nat) (register shutdown : Option Error) : NamedTunnelRPCClient :=
  { id := id
    RegisterConnection := fun _ _ _ _ _ => register
    GracefulShutdown := fun _ _ => shutdown }

/-- A factory double returning the client double, whatever the stream. -/
def mockFactory (id : Nat) (register shutdown : Option Error) : RPCClientFunc :=
  fun _ _ _ => mockClient id register shutdown

/-- The observer used in the examples. -/
def testObserver : Observer := { id := 1, log := 10 }

/-- A handler for connection index 3 with a grace period of two seconds, built by
NewControlStream on a factory double. -/
def testHandler (register shutdown : Option Error) : controlStream :=
  NewControlStream (mockFactory 0 none none) testObserver 5 6 3
    (some (mockFactory 42 register shutdown)) 8 2000000000

/-- The runtime sees only the context cancelled. -/
def rtCancelled : Runtime :=
  { ctxDoneReady := true, shutdownReady := false, pick := SelectCase.ctxDone }

/-- The runtime sees only the shutdown trigger fired. -/
def rtShutdown : Runtime :=
  { ctxDoneReady := false, shutdownReady := true, pick := SelectCase.ctxDone }

/-- The runtime sees neither channel ready, ever. -/
def rtNever : Runtime :=
  { ctxDoneReady := false, shutdownReady := false, pick := SelectCase.ctxDone }

/-! ## The four shapes of a run -/

theorem serve_failed (c : controlStream) (rt : Runtime) (ctx : Context) (rw : Stream)
    (o : ConnectionOptions) (e : Error) (h : registerResult c ctx rw o = some e) :
    ServeControlStream c rt ctx rw o =
      { trace :=
          [ ⟨Action.newRPCClientFunc ctx rw c.observer.log, c⟩,
            ⟨Action.RegisterConnection (clientOf c ctx rw) ctx c.namedTunnelConfig o
              c.connIndex c.observer, c⟩,
            ⟨Action.Close (clientOf c ctx rw), c⟩ ]
        final := c
        outcome := Outcome.returned (some e) } := by
  unfold registerResult at h
  simp [ServeControlStream, clientOf, h]

theorem serve_blocked (c : controlStream) (rt : Runtime) (ctx : Context) (rw : Stream)
    (o : ConnectionOptions) (h : registerResult c ctx rw o = none)
    (hw : selectWait rt = none) :
    ServeControlStream c rt ctx rw o =
      { trace :=
          [ ⟨Action.newRPCClientFunc ctx rw c.observer.log, c⟩,
            ⟨Action.RegisterConnection (clientOf c ctx rw) ctx c.namedTunnelConfig o
              c.connIndex c.observer, c⟩,
            ⟨Action.Connected c.connectedFuse, c⟩,
            ⟨Action.selectWait ctx c.gracefulShutdownC, c⟩ ]
        final := c
        outcome := Outcome.blocked } := by
  unfold registerResult at h
  simp [ServeControlStream, clientOf, h, hw]

theorem serve_cancelled (c : controlStream) (rt : Runtime) (ctx : Context) (rw : Stream)
    (o : ConnectionOptions) (h : registerResult c ctx rw o = none)
    (hw : selectWait rt = some SelectCase.ctxDone) :
    ServeControlStream c rt ctx rw o =
      { trace :=
          [ ⟨Action.newRPCClientFunc ctx rw c.observer.log, c⟩,
            ⟨Action.RegisterConnection (clientOf c ctx rw) ctx c.namedTunnelConfig o
              c.connIndex c.observer, c⟩,
            ⟨Action.Connected c.connectedFuse, c⟩,
            ⟨Action.selectWait ctx c.gracefulShutdownC, c⟩,
            ⟨Action.sendUnregisteringEvent c.observer c.connIndex, c⟩,
            ⟨Action.GracefulShutdown (clientOf c ctx rw) ctx c.gracePeriod, c⟩,
            ⟨Action.logUnregistered c.observer.log c.connIndex, c⟩,
            ⟨Action.Close (clientOf c ctx rw), c⟩ ]
        final := c
        outcome := Outcome.returned none } := by
  unfold registerResult at h
  simp [ServeControlStream, unregister, clientOf, h, hw]

theorem serve_graceful (c : controlStream) (rt : Runtime) (ctx : Context) (rw : Stream)
    (o : ConnectionOptions) (h : registerResult c ctx rw o = none)
    (hw : selectWait rt = some SelectCase.gracefulShutdownC) :
    ServeControlStream c rt ctx rw o =
      { trace :=
          [ ⟨Action.newRPCClientFunc ctx rw c.observer.log, c⟩,
            ⟨Action.RegisterConnection (clientOf c ctx rw) ctx c.namedTunnelConfig o
              c.connIndex c.observer, c⟩,
            ⟨Action.Connected c.connectedFuse, c⟩,
            ⟨Action.selectWait ctx c.gracefulShutdownC, c⟩,
            ⟨Action.setStoppedGracefully true, c⟩,
            ⟨Action.sendUnregisteringEvent c.observer c.connIndex,
              { c with stoppedGracefully := true }⟩,
            ⟨Action.GracefulShutdown (clientOf c ctx rw) ctx c.gracePeriod,
              { c with stoppedGracefully := true }⟩,
            ⟨Action.logUnregistered c.observer.log c.connIndex,
              { c with stoppedGracefully := true }⟩,
            ⟨Action.Close (clientOf c ctx rw), { c with stoppedGracefully := true }⟩ ]
        final := { c with stoppedGracefully := true }
        outcome := Outcome.returned none } := by
  unfold registerResult at h
  simp [ServeControlStream, unregister, clientOf, h, hw]

/-- Every run has one of the four shapes: the wait case is total over the select result. -/
theorem selectCase_cases (w : Option SelectCase) :
    w = none ∨ w = some SelectCase.ctxDone ∨ w = some SelectCase.gracefulShutdownC := by
  rcases w with _ | k
  · exact Or.inl rfl
  · cases k
    · exact Or.inr (Or.inl rfl)
    · exact Or.inr (Or.inr rfl)

/-- When registration succeeds and neither channel ever becomes ready the invocation does not
return: the run stops at the wait, Close has not been called and no unregistration is made. -/
theorem serve_blocked_example :
    (ServeControlStream (testHandler none none) rtNever 7 9 4).outcome = Outcome.blocked ∧
    (ServeControlStream (testHandler none none) rtNever 7 9 4).kinds =
      [Kind.newRPCClientFunc, Kind.RegisterConnection, Kind.Connected, Kind.selectWait] := by
  rw [serve_blocked (testHandler none none) rtNever 7 9 4 rfl rfl]
  simp [Run.kinds, Action.kind]

/-! ## Registration failure -/

/-- C1: when RegisterConnection reports an error E, ServeControlStream returns exactly E, and the
run contains no Connected call, no unregistering event, no GracefulShutdown call and no write of
stoppedGracefully; the handler is left as it was (so IsStopped is unchanged), and Close is called
exactly once, on the client the factory returned. -/
theorem C1_registration_failure (c : controlStream) (rt : Runtime) (ctx : Context)
    (rw : Stream) (o : ConnectionOptions) (E : Error)
    (h : registerResult c ctx rw o = some E) :
    (ServeControlStream c rt ctx rw o).outcome = Outcome.returned (some E) ∧
    Kind.Connected ∉ (ServeControlStream c rt ctx rw o).kinds ∧
    Kind.sendUnregisteringEvent ∉ (ServeControlStream c rt ctx rw o).kinds ∧
    Kind.GracefulShutdown ∉ (ServeControlStream c rt ctx rw o).kinds ∧
    Kind.setStoppedGracefully ∉ (ServeControlStream c rt ctx rw o).kinds ∧
    (ServeControlStream c rt ctx rw o).final = c ∧
    IsStopped (ServeControlStream c rt ctx rw o).final = IsStopped c ∧
    (ServeControlStream c rt ctx rw o).kinds.count Kind.Close = 1 ∧
    (ServeControlStream c rt ctx rw o).calls.count (Action.Close (clientOf c ctx rw)) = 1 := by
  rw [serve_failed c rt ctx rw o E h]
  simp [Run.kinds, Run.calls, Action.kind]

/-- Scenario 2 of the spec: registration refused on the test handler. -/
theorem C1_registration_failure_witness :
    registerResult (testHandler (some "registration refused") none) 7 9 4
        = some "registration refused" ∧
    ((ServeControlStream (testHandler (some "registration refused") none) rtShutdown 7 9 4).outcome
        = Outcome.returned (some "registration refused") ∧
    Kind.Connected ∉
      (ServeControlStream (testHandler (some "registration refused") none) rtShutdown 7 9 4).kinds ∧
    Kind.sendUnregisteringEvent ∉
      (ServeControlStream (testHandler (some "registration refused") none) rtShutdown 7 9 4).kinds ∧
    Kind.GracefulShutdown ∉
      (ServeControlStream (testHandler (some "registration refused") none) rtShutdown 7 9 4).kinds ∧
    Kind.setStoppedGracefully ∉
      (ServeControlStream (testHandler (some "registration refused") none) rtShutdown 7 9 4).kinds ∧
    (ServeControlStream (testHandler (some "registration refused") none) rtShutdown 7 9 4).final
        = testHandler (some "registration refused") none ∧
    IsStopped
        (ServeControlStream (testHandler (some "registration refused") none) rtShutdown 7 9 4).final
        = IsStopped (testHandler (some "registration refused") none) ∧
    (ServeControlStream (testHandler (some "registration refused") none) rtShutdown 7 9 4).kinds.count
        Kind.Close = 1 ∧
    (ServeControlStream (testHandler (some "registration refused") none) rtShutdown 7 9 4).calls.count
        (Action.Close (clientOf (testHandler (some "registration refused") none) 7 9)) = 1) :=
  ⟨rfl, C1_registration_failure _ rtShutdown 7 9 4 "registration refused" rfl⟩

/-! ## Acquisition and release of the client -/

/-- C2: on each of the three exit paths of ServeControlStream, that is when RegisterConnection
reports an error (registration failure) or, after a successful registration, the select takes
the ctx.Done case (context cancellation) or the gracefulShutdownC case (graceful shutdown
trigger), the invocation returns what registration reported, the handler's factory is called
exactly once, first, with the supplied context and stream, Close is called exactly once, on the
client that call returned, and it is the last step of the run.  The factory of a handler built
by NewControlStream is the configured one, or the package default when none was configured. -/
theorem C2_client_created_and_closed_once (c : controlStream) (rt : Runtime) (ctx : Context)
    (rw : Stream) (o : ConnectionOptions)
    (h : registerResult c ctx rw o ≠ none ∨ selectWait rt ≠ none) :
    (ServeControlStream c rt ctx rw o).outcome =
      Outcome.returned (registerResult c ctx rw o) ∧
    (ServeControlStream c rt ctx rw o).kinds.count Kind.newRPCClientFunc = 1 ∧
    (ServeControlStream c rt ctx rw o).calls.head? =
      some (Action.newRPCClientFunc ctx rw c.observer.log) ∧
    (ServeControlStream c rt ctx rw o).kinds.count Kind.Close = 1 ∧
    (ServeControlStream c rt ctx rw o).calls.count (Action.Close (clientOf c ctx rw)) = 1 ∧
    (ServeControlStream c rt ctx rw o).calls.getLast? =
      some (Action.Close (clientOf c ctx rw)) ∧
    (∀ d obs fuse cfg idx f ch gp,
      (NewControlStream d obs fuse cfg idx (some f) ch gp).newRPCClientFunc = f ∧
      (NewControlStream d obs fuse cfg idx none ch gp).newRPCClientFunc = d) := by
  rcases hreg : registerResult c ctx rw o with _ | e1
  · rcases selectCase_cases (selectWait rt) with hw | hw | hw
    · rcases h with h | h
      · exact absurd hreg h
      · exact absurd hw h
    · rw [serve_cancelled c rt ctx rw o hreg hw]
      simp [Run.kinds, Run.calls, Action.kind, NewControlStream]
    · rw [serve_graceful c rt ctx rw o hreg hw]
      simp [Run.kinds, Run.calls, Action.kind, NewControlStream]
  · rw [serve_failed c rt ctx rw o e1 hreg]
    simp [Run.kinds, Run.calls, Action.kind, NewControlStream]

/-- The three exit paths on the test handler: registration refused (with a select that would
never unblock), context cancelled, shutdown trigger fired.  On each the invocation returns, the
factory is called once, and client 42 is closed once, last. -/
theorem C2_client_created_and_closed_once_witness :
    ((registerResult (testHandler (some "registration refused") none) 7 9 4 ≠ none ∨
        selectWait rtNever ≠ none) ∧
      (ServeControlStream (testHandler (some "registration refused") none) rtNever 7 9 4).outcome
        = Outcome.returned (some "registration refused") ∧
      (ServeControlStream (testHandler (some "registration refused") none) rtNever
        7 9 4).kinds.count Kind.newRPCClientFunc = 1 ∧
      (ServeControlStream (testHandler (some "registration refused") none) rtNever
        7 9 4).kinds.count Kind.Close = 1 ∧
      (ServeControlStream (testHandler (some "registration refused") none) rtNever
        7 9 4).calls.getLast? = some (Action.Close 42)) ∧
    ((registerResult (testHandler none none) 7 9 4 ≠ none ∨ selectWait rtCancelled ≠ none) ∧
      (ServeControlStream (testHandler none none) rtCancelled 7 9 4).outcome
        = Outcome.returned none ∧
      (ServeControlStream (testHandler none none) rtCancelled 7 9 4).kinds.count
        Kind.newRPCClientFunc = 1 ∧
      (ServeControlStream (testHandler none none) rtCancelled 7 9 4).kinds.count
        Kind.Close = 1 ∧
      (ServeControlStream (testHandler none none) rtCancelled 7 9 4).calls.getLast? =
        some (Action.Close 42)) ∧
    ((registerResult (testHandler none none) 7 9 4 ≠ none ∨ selectWait rtShutdown ≠ none) ∧
      (ServeControlStream (testHandler none none) rtShutdown 7 9 4).outcome
        = Outcome.returned none ∧
      (ServeControlStream (testHandler none none) rtShutdown 7 9 4).kinds.count
        Kind.newRPCClientFunc = 1 ∧
      (ServeControlStream (testHandler none none) rtShutdown 7 9 4).kinds.count
        Kind.Close = 1 ∧
      (ServeControlStream (testHandler none none) rtShutdown 7 9 4).calls.getLast? =
        some (Action.Close 42)) :=
  ⟨⟨Or.inl (by decide),
    (C2_client_created_and_closed_once (testHandler (some "registration refused") none) rtNever
      7 9 4 (Or.inl (by decide))).1,
    (C2_client_created_and_closed_once (testHandler (some "registration refused") none) rtNever
      7 9 4 (Or.inl (by decide))).2.1,
    (C2_client_created_and_closed_once (testHandler (some "registration refused") none) rtNever
      7 9 4 (Or.inl (by decide))).2.2.2.1,
    (C2_client_created_and_closed_once (testHandler (some "registration refused") none) rtNever
      7 9 4 (Or.inl (by decide))).2.2.2.2.2.1⟩,
   ⟨Or.inr (by decide),
    (C2_client_created_and_closed_once (testHandler none none) rtCancelled 7 9 4
      (Or.inr (by decide))).1,
    (C2_client_created_and_closed_once (testHandler none none) rtCancelled 7 9 4
      (Or.inr (by decide))).2.1,
    (C2_client_created_and_closed_once (testHandler none none) rtCancelled 7 9 4
      (Or.inr (by decide))).2.2.2.1,
    (C2_client_created_and_closed_once (testHandler none none) rtCancelled 7 9 4
      (Or.inr (by decide))).2.2.2.2.2.1⟩,
   ⟨Or.inr (by decide),
    (C2_client_created_and_closed_once (testHandler none none) rtShutdown 7 9 4
      (Or.inr (by decide))).1,
    (C2_client_created_and_closed_once (testHandler none none) rtShutdown 7 9 4
      (Or.inr (by decide))).2.1,
    (C2_client_created_and_closed_once (testHandler none none) rtShutdown 7 9 4
      (Or.inr (by decide))).2.2.2.1,
    (C2_client_created_and_closed_once (testHandler none none) rtShutdown 7 9 4
      (Or.inr (by decide))).2.2.2.2.2.1⟩⟩

/-! ## Readiness -/

/-- C3: when RegisterConnection reports no error, Connected is called exactly once in the
invocation (on the handler's fuse), and in every invocation, whatever registration reports,
each Connected step has a RegisterConnection step somewhere before it. -/
theorem C3_connected_once_after_registration (c : controlStream) (rt : Runtime)
    (ctx : Context) (rw : Stream) (o : ConnectionOptions) :
    (registerResult c ctx rw o = none →
      (ServeControlStream c rt ctx rw o).kinds.count Kind.Connected = 1 ∧
      (ServeControlStream c rt ctx rw o).calls.count (Action.Connected c.connectedFuse) = 1 ∧
      (ServeControlStream c rt ctx rw o).kinds.indexOf Kind.RegisterConnection <
        (ServeControlStream c rt ctx rw o).kinds.indexOf Kind.Connected) ∧
    (∀ i, (ServeControlStream c rt ctx rw o).kinds.get? i = some Kind.Connected →
      ∃ j, j < i ∧
        (ServeControlStream c rt ctx rw o).kinds.get? j = some Kind.RegisterConnection) ∧
    (registerResult c ctx rw o ≠ none →
      (ServeControlStream c rt ctx rw o).kinds.count Kind.Connected = 0) := by
  rcases hreg : registerResult c ctx rw o with _ | e1
  · rcases selectCase_cases (selectWait rt) with hw | hw | hw
    · rw [serve_blocked c rt ctx rw o hreg hw]
      refine ⟨fun _ => ?_, ?_, fun hne => absurd rfl hne⟩
      · simp [Run.kinds, Run.calls, Action.kind, List.indexOf_cons]
      · intro i hi
        refine ⟨1, ?_, by simp [Run.kinds, Action.kind]⟩
        rcases i with _ | _ | i
        · simp [Run.kinds, Action.kind] at hi
        · simp [Run.kinds, Action.kind] at hi
        · omega
    · rw [serve_cancelled c rt ctx rw o hreg hw]
      refine ⟨fun _ => ?_, ?_, fun hne => absurd rfl hne⟩
      · simp [Run.kinds, Run.calls, Action.kind, List.indexOf_cons]
      · intro i hi
        refine ⟨1, ?_, by simp [Run.kinds, Action.kind]⟩
        rcases i with _ | _ | i
        · simp [Run.kinds, Action.kind] at hi
        · simp [Run.kinds, Action.kind] at hi
        · omega
    · rw [serve_graceful c rt ctx rw o hreg hw]
      refine ⟨fun _ => ?_, ?_, fun hne => absurd rfl hne⟩
      · simp [Run.kinds, Run.calls, Action.kind, List.indexOf_cons]
      · intro i hi
        refine ⟨1, ?_, by simp [Run.kinds, Action.kind]⟩
        rcases i with _ | _ | i
        · simp [Run.kinds, Action.kind] at hi
        · simp [Run.kinds, Action.kind] at hi
        · omega
  · rw [serve_failed c rt ctx rw o e1 hreg]
    refine ⟨fun hn => by simp at hn, ?_, fun _ => by simp [Run.kinds, Action.kind]⟩
    intro i hi
    rcases i with _ | _ | _ | i <;> simp [Run.kinds, Action.kind] at hi

/-- Scenario 1 of the spec: registration succeeds on the test handler, Connected is called
once, after RegisterConnection. -/
theorem C3_connected_once_after_registration_witness :
    registerResult (testHandler none none) 7 9 4 = none ∧
    (ServeControlStream (testHandler none none) rtCancelled 7 9 4).kinds.count
        Kind.Connected = 1 ∧
    (ServeControlStream (testHandler none none) rtCancelled 7 9 4).calls.count
        (Action.Connected 5) = 1 ∧
    (ServeControlStream (testHandler none none) rtCancelled 7 9 4).kinds.indexOf
        Kind.RegisterConnection <
      (ServeControlStream (testHandler none none) rtCancelled 7 9 4).kinds.indexOf
        Kind.Connected :=
  ⟨rfl, (C3_connected_once_after_registration (testHandler none none) rtCancelled 7 9 4).1 rfl⟩

/-! ## The two ways out of the wait -/

/-- C4: take a handler built by NewControlStream with grace period gp (its flag may have any
value by now).  When registration succeeds and the select takes the gracefulShutdownC case,
ServeControlStream returns, IsStopped is true afterwards, and GracefulShutdown is called exactly
once, with exactly gp. -/
theorem C4_graceful_trigger_sets_flag (d : RPCClientFunc) (obs : Observer)
    (fuse : ConnectedFuse) (cfg : NamedTunnelConfig) (idx : Nat) (f : Option RPCClientFunc)
    (ch : ShutdownChan) (gp : Duration) (c : controlStream) (rt : Runtime) (ctx : Context)
    (rw : Stream) (o : ConnectionOptions)
    (hc : sameConfig c (NewControlStream d obs fuse cfg idx f ch gp))
    (h : registerResult c ctx rw o = none)
    (hw : selectWait rt = some SelectCase.gracefulShutdownC) :
    (ServeControlStream c rt ctx rw o).outcome = Outcome.returned none ∧
    IsStopped (ServeControlStream c rt ctx rw o).final = true ∧
    (ServeControlStream c rt ctx rw o).kinds.count Kind.GracefulShutdown = 1 ∧
    (ServeControlStream c rt ctx rw o).calls.count
      (Action.GracefulShutdown (clientOf c ctx rw) ctx gp) = 1 := by
  obtain ⟨-, -, -, -, -, -, hgp⟩ := hc
  have hgp2 : c.gracePeriod = gp := by simpa [NewControlStream] using hgp
  rw [serve_graceful c rt ctx rw o h hw]
  simp [Run.kinds, Run.calls, Action.kind, IsStopped, hgp2]

/-- Scenario 3 of the spec: two seconds in, two seconds passed. -/
theorem C4_graceful_trigger_sets_flag_witness :
    sameConfig (testHandler none none)
      (NewControlStream (mockFactory 0 none none) testObserver 5 6 3
        (some (mockFactory 42 none none)) 8 2000000000) ∧
    registerResult (testHandler none none) 7 9 4 = none ∧
    selectWait rtShutdown = some SelectCase.gracefulShutdownC ∧
    IsStopped (ServeControlStream (testHandler none none) rtShutdown 7 9 4).final = true ∧
    (ServeControlStream (testHandler none none) rtShutdown 7 9 4).calls.count
      (Action.GracefulShutdown 42 7 2000000000) = 1 :=
  ⟨⟨rfl, rfl, rfl, rfl, rfl, rfl, rfl⟩, rfl, rfl,
   (C4_graceful_trigger_sets_flag (mockFactory 0 none none) testObserver 5 6 3
      (some (mockFactory 42 none none)) 8 2000000000 (testHandler none none) rtShutdown 7 9 4
      ⟨rfl, rfl, rfl, rfl, rfl, rfl, rfl⟩ rfl rfl).2.1,
   (C4_graceful_trigger_sets_flag (mockFactory 0 none none) testObserver 5 6 3
      (some (mockFactory 42 none none)) 8 2000000000 (testHandler none none) rtShutdown 7 9 4
      ⟨rfl, rfl, rfl, rfl, rfl, rfl, rfl⟩ rfl rfl).2.2.2⟩

/-- C5: on a handler freshly returned by NewControlStream, when registration succeeds and the
select takes the ctx.Done case, ServeControlStream returns nil, IsStopped is false afterwards,
GracefulShutdown is called exactly once, with the configured grace period, and Close is called
once. -/
theorem C5_cancellation_leaves_flag_false (d : RPCClientFunc) (obs : Observer)
    (fuse : ConnectedFuse) (cfg : NamedTunnelConfig) (idx : Nat) (f : Option RPCClientFunc)
    (ch : ShutdownChan) (gp : Duration) (rt : Runtime) (ctx : Context)
    (rw : Stream) (o : ConnectionOptions)
    (h : registerResult (NewControlStream d obs fuse cfg idx f ch gp) ctx rw o = none)
    (hw : selectWait rt = some SelectCase.ctxDone) :
    (ServeControlStream (NewControlStream d obs fuse cfg idx f ch gp) rt ctx rw o).outcome
      = Outcome.returned none ∧
    IsStopped (ServeControlStream (NewControlStream d obs fuse cfg idx f ch gp) rt ctx rw o).final
      = false ∧
    (ServeControlStream (NewControlStream d obs fuse cfg idx f ch gp) rt ctx rw o).kinds.count
      Kind.GracefulShutdown = 1 ∧
    (ServeControlStream (NewControlStream d obs fuse cfg idx f ch gp) rt ctx rw o).calls.count
      (Action.GracefulShutdown (clientOf (NewControlStream d obs fuse cfg idx f ch gp) ctx rw)
        ctx gp) = 1 ∧
    (ServeControlStream (NewControlStream d obs fuse cfg idx f ch gp) rt ctx rw o).kinds.count
      Kind.Close = 1 := by
  rw [serve_cancelled _ rt ctx rw o h hw]
  simp [Run.kinds, Run.calls, Action.kind, IsStopped, NewControlStream]

/-- Scenario 1 of the spec: the context is cancelled while the test handler waits. -/
theorem C5_cancellation_leaves_flag_false_witness :
    registerResult (NewControlStream (mockFactory 0 none none) testObserver 5 6 3
        (some (mockFactory 42 none none)) 8 2000000000) 7 9 4 = none ∧
    selectWait rtCancelled = some SelectCase.ctxDone ∧
    (ServeControlStream (NewControlStream (mockFactory 0 none none) testObserver 5 6 3
        (some (mockFactory 42 none none)) 8 2000000000) rtCancelled 7 9 4).outcome
      = Outcome.returned none ∧
    IsStopped (ServeControlStream (NewControlStream (mockFactory 0 none none) testObserver 5 6 3
        (some (mockFactory 42 none none)) 8 2000000000) rtCancelled 7 9 4).final = false :=
  ⟨rfl, rfl,
   (C5_cancellation_leaves_flag_false (mockFactory 0 none none) testObserver 5 6 3
      (some (mockFactory 42 none none)) 8 2000000000 rtCancelled 7 9 4 rfl rfl).1,
   (C5_cancellation_leaves_flag_false (mockFactory 0 none none) testObserver 5 6 3
      (some (mockFactory 42 none none)) 8 2000000000 rtCancelled 7 9 4 rfl rfl).2.1⟩

/-! ## Unregistration -/

/-- C6: take an invocation on one of its exit paths (registration reports an error, or the
select takes one of its two cases).  It returns, and unregistration (the unregistering event
immediately followed by the GracefulShutdown call, each occurring once) is performed if and
only if RegisterConnection reported no error: after a successful registration the event and
GracefulShutdown each occur exactly once, whichever case of the select ends the wait, and
after a failed one neither occurs. -/
theorem C6_unregistration_iff_registered (c : controlStream) (rt : Runtime) (ctx : Context)
    (rw : Stream) (o : ConnectionOptions)
    (h : registerResult c ctx rw o ≠ none ∨ selectWait rt ≠ none) :
    (ServeControlStream c rt ctx rw o).outcome =
      Outcome.returned (registerResult c ctx rw o) ∧
    (((ServeControlStream c rt ctx rw o).kinds.count Kind.sendUnregisteringEvent = 1 ∧
      (ServeControlStream c rt ctx rw o).kinds.count Kind.GracefulShutdown = 1 ∧
      ∃ before after, (ServeControlStream c rt ctx rw o).calls =
        before ++ [Action.sendUnregisteringEvent c.observer c.connIndex,
          Action.GracefulShutdown (clientOf c ctx rw) ctx c.gracePeriod] ++ after)
      ↔ registerResult c ctx rw o = none) ∧
    (registerResult c ctx rw o = none →
      (ServeControlStream c rt ctx rw o).kinds.count Kind.GracefulShutdown = 1 ∧
      (ServeControlStream c rt ctx rw o).kinds.count Kind.sendUnregisteringEvent = 1) ∧
    (registerResult c ctx rw o ≠ none →
      (ServeControlStream c rt ctx rw o).kinds.count Kind.GracefulShutdown = 0 ∧
      (ServeControlStream c rt ctx rw o).kinds.count Kind.sendUnregisteringEvent = 0) := by
  rcases hreg : registerResult c ctx rw o with _ | e1
  · rcases selectCase_cases (selectWait rt) with hw | hw | hw
    · rcases h with h | h
      · exact absurd hreg h
      · exact absurd hw h
    · rw [serve_cancelled c rt ctx rw o hreg hw]
      refine ⟨rfl, ⟨fun _ => rfl, fun _ => ⟨?_, ?_, ?_⟩⟩, fun _ => ?_,
        fun hne => absurd rfl hne⟩
      · simp [Run.kinds, Action.kind]
      · simp [Run.kinds, Action.kind]
      · exact ⟨[Action.newRPCClientFunc ctx rw c.observer.log,
            Action.RegisterConnection (clientOf c ctx rw) ctx c.namedTunnelConfig o
              c.connIndex c.observer,
            Action.Connected c.connectedFuse, Action.selectWait ctx c.gracefulShutdownC],
          [Action.logUnregistered c.observer.log c.connIndex, Action.Close (clientOf c ctx rw)],
          by simp [Run.calls]⟩
      · simp [Run.kinds, Action.kind]
    · rw [serve_graceful c rt ctx rw o hreg hw]
      refine ⟨rfl, ⟨fun _ => rfl, fun _ => ⟨?_, ?_, ?_⟩⟩, fun _ => ?_,
        fun hne => absurd rfl hne⟩
      · simp [Run.kinds, Action.kind]
      · simp [Run.kinds, Action.kind]
      · exact ⟨[Action.newRPCClientFunc ctx rw c.observer.log,
            Action.RegisterConnection (clientOf c ctx rw) ctx c.namedTunnelConfig o
              c.connIndex c.observer,
            Action.Connected c.connectedFuse, Action.selectWait ctx c.gracefulShutdownC,
            Action.setStoppedGracefully true],
          [Action.logUnregistered c.observer.log c.connIndex, Action.Close (clientOf c ctx rw)],
          by simp [Run.calls]⟩
      · simp [Run.kinds, Action.kind]
  · rw [serve_failed c rt ctx rw o e1 hreg]
    refine ⟨rfl, ⟨fun hh => ?_, fun hn => by simp at hn⟩, fun hn => by simp at hn,
      fun _ => ?_⟩
    · have h1 := hh.1
      simp [Run.kinds, Action.kind] at h1
    · simp [Run.kinds, Action.kind]

/-- On the test handler: after a successful registration GracefulShutdown is called once when
the context is cancelled and once when the shutdown trigger fires; after a refused registration
it is not called, and every one of the three invocations returns. -/
theorem C6_unregistration_iff_registered_witness :
    ((registerResult (testHandler none none) 7 9 4 ≠ none ∨ selectWait rtCancelled ≠ none) ∧
      (ServeControlStream (testHandler none none) rtCancelled 7 9 4).outcome
        = Outcome.returned none ∧
      (ServeControlStream (testHandler none none) rtCancelled 7 9 4).kinds.count
        Kind.GracefulShutdown = 1 ∧
      (ServeControlStream (testHandler none none) rtCancelled 7 9 4).kinds.count
        Kind.sendUnregisteringEvent = 1) ∧
    ((registerResult (testHandler none none) 7 9 4 ≠ none ∨ selectWait rtShutdown ≠ none) ∧
      (ServeControlStream (testHandler none none) rtShutdown 7 9 4).outcome
        = Outcome.returned none ∧
      (ServeControlStream (testHandler none none) rtShutdown 7 9 4).kinds.count
        Kind.GracefulShutdown = 1 ∧
      (ServeControlStream (testHandler none none) rtShutdown 7 9 4).kinds.count
        Kind.sendUnregisteringEvent = 1) ∧
    ((registerResult (testHandler (some "registration refused") none) 7 9 4 ≠ none ∨
        selectWait rtShutdown ≠ none) ∧
      (ServeControlStream (testHandler (some "registration refused") none) rtShutdown
        7 9 4).outcome = Outcome.returned (some "registration refused") ∧
      (ServeControlStream (testHandler (some "registration refused") none) rtShutdown
        7 9 4).kinds.count Kind.GracefulShutdown = 0 ∧
      (ServeControlStream (testHandler (some "registration refused") none) rtShutdown
        7 9 4).kinds.count Kind.sendUnregisteringEvent = 0) :=
  ⟨⟨Or.inr (by decide),
    (C6_unregistration_iff_registered (testHandler none none) rtCancelled 7 9 4
      (Or.inr (by decide))).1,
    (C6_unregistration_iff_registered (testHandler none none) rtCancelled 7 9 4
      (Or.inr (by decide))).2.2.1 rfl⟩,
   ⟨Or.inr (by decide),
    (C6_unregistration_iff_registered (testHandler none none) rtShutdown 7 9 4
      (Or.inr (by decide))).1,
    (C6_unregistration_iff_registered (testHandler none none) rtShutdown 7 9 4
      (Or.inr (by decide))).2.2.1 rfl⟩,
   ⟨Or.inl (by decide),
    (C6_unregistration_iff_registered (testHandler (some "registration refused") none)
      rtShutdown 7 9 4 (Or.inl (by decide))).1,
    (C6_unregistration_iff_registered (testHandler (some "registration refused") none)
      rtShutdown 7 9 4 (Or.inl (by decide))).2.2.2 (by decide)⟩⟩

/-! ## Order of the steps -/

/-- C7: when registration succeeds and the select takes case k, the steps of the invocation
are, in this order: the construction of the client, RegisterConnection(namedTunnelConfig,
connOptions, connIndex, observer), Connected, the wait on ctx.Done and gracefulShutdownC, (the
write of the flag when k is the shutdown case), sendUnregisteringEvent(connIndex),
GracefulShutdown(gracePeriod), the completion log carrying connIndex, Close.  The calls on
collaborators among them are exactly the seven of the claim, on either case. -/
theorem C7_order_of_calls (c : controlStream) (rt : Runtime) (ctx : Context) (rw : Stream)
    (o : ConnectionOptions) (k : SelectCase)
    (h : registerResult c ctx rw o = none) (hw : selectWait rt = some k) :
    (ServeControlStream c rt ctx rw o).calls =
      [ Action.newRPCClientFunc ctx rw c.observer.log,
        Action.RegisterConnection (clientOf c ctx rw) ctx c.namedTunnelConfig o c.connIndex
          c.observer,
        Action.Connected c.connectedFuse,
        Action.selectWait ctx c.gracefulShutdownC ] ++
      (if k = SelectCase.gracefulShutdownC then [Action.setStoppedGracefully true] else []) ++
      [ Action.sendUnregisteringEvent c.observer c.connIndex,
        Action.GracefulShutdown (clientOf c ctx rw) ctx c.gracePeriod,
        Action.logUnregistered c.observer.log c.connIndex,
        Action.Close (clientOf c ctx rw) ] ∧
    (ServeControlStream c rt ctx rw o).calls.filter (fun a => a.kind.isCollaboratorCall) =
      [ Action.RegisterConnection (clientOf c ctx rw) ctx c.namedTunnelConfig o c.connIndex
          c.observer,
        Action.Connected c.connectedFuse,
        Action.selectWait ctx c.gracefulShutdownC,
        Action.sendUnregisteringEvent c.observer c.connIndex,
        Action.GracefulShutdown (clientOf c ctx rw) ctx c.gracePeriod,
        Action.logUnregistered c.observer.log c.connIndex,
        Action.Close (clientOf c ctx rw) ] := by
  cases k
  · rw [serve_cancelled c rt ctx rw o h hw]
    simp [Run.calls, Action.kind, Kind.isCollaboratorCall]
  · rw [serve_graceful c rt ctx rw o h hw]
    simp [Run.calls, Action.kind, Kind.isCollaboratorCall]

/-- Scenario 3 of the spec: the calls of the graceful run of the test handler, in order. -/
theorem C7_order_of_calls_witness :
    registerResult (testHandler none none) 7 9 4 = none ∧
    selectWait rtShutdown = some SelectCase.gracefulShutdownC ∧
    (ServeControlStream (testHandler none none) rtShutdown 7 9 4).calls.filter
        (fun a => a.kind.isCollaboratorCall) =
      [ Action.RegisterConnection 42 7 6 4 3 testObserver,
        Action.Connected 5,
        Action.selectWait 7 8,
        Action.sendUnregisteringEvent testObserver 3,
        Action.GracefulShutdown 42 7 2000000000,
        Action.logUnregistered 10 3,
        Action.Close 42 ] :=
  ⟨rfl, rfl,
   (C7_order_of_calls (testHandler none none) rtShutdown 7 9 4 SelectCase.gracefulShutdownC
      rfl rfl).2⟩

/-! ## The returned error -/

/-- C8: ServeControlStream returns a non-nil error if and only if RegisterConnection reported
one.  When registration reports an error E the invocation returns E; when registration succeeds
it returns nil, both when the select takes the ctx.Done case and when it takes the
gracefulShutdownC case; the only invocation that does not return is one whose registration
succeeded and whose select never unblocks.  Replacing what GracefulShutdown reports by anything
else changes neither the outcome nor the calls made. -/
theorem C8_error_iff_registration_error (c : controlStream) (rt : Runtime) (ctx : Context)
    (rw : Stream) (o : ConnectionOptions) :
    ((∃ E, (ServeControlStream c rt ctx rw o).outcome = Outcome.returned (some E)) ↔
      registerResult c ctx rw o ≠ none) ∧
    (∀ E, registerResult c ctx rw o = some E →
      (ServeControlStream c rt ctx rw o).outcome = Outcome.returned (some E)) ∧
    (registerResult c ctx rw o = none → selectWait rt = some SelectCase.ctxDone →
      (ServeControlStream c rt ctx rw o).outcome = Outcome.returned none) ∧
    (registerResult c ctx rw o = none → selectWait rt = some SelectCase.gracefulShutdownC →
      (ServeControlStream c rt ctx rw o).outcome = Outcome.returned none) ∧
    (registerResult c ctx rw o = none → selectWait rt = none →
      (ServeControlStream c rt ctx rw o).outcome = Outcome.blocked) ∧
    (∀ g, (ServeControlStream (withShutdown c g) rt ctx rw o).outcome =
        (ServeControlStream c rt ctx rw o).outcome ∧
      (ServeControlStream (withShutdown c g) rt ctx rw o).calls =
        (ServeControlStream c rt ctx rw o).calls) := by
  have hind : ∀ g, (ServeControlStream (withShutdown c g) rt ctx rw o).outcome =
        (ServeControlStream c rt ctx rw o).outcome ∧
      (ServeControlStream (withShutdown c g) rt ctx rw o).calls =
        (ServeControlStream c rt ctx rw o).calls := by
    intro g
    have hg : registerResult (withShutdown c g) ctx rw o = registerResult c ctx rw o := rfl
    rcases hreg : registerResult c ctx rw o with _ | e1
    · rcases selectCase_cases (selectWait rt) with hw | hw | hw
      · rw [serve_blocked c rt ctx rw o hreg hw,
          serve_blocked (withShutdown c g) rt ctx rw o (hg.trans hreg) hw]
        simp [Run.calls, withShutdown, clientOf]
      · rw [serve_cancelled c rt ctx rw o hreg hw,
          serve_cancelled (withShutdown c g) rt ctx rw o (hg.trans hreg) hw]
        simp [Run.calls, withShutdown, clientOf]
      · rw [serve_graceful c rt ctx rw o hreg hw,
          serve_graceful (withShutdown c g) rt ctx rw o (hg.trans hreg) hw]
        simp [Run.calls, withShutdown, clientOf]
    · rw [serve_failed c rt ctx rw o e1 hreg,
        serve_failed (withShutdown c g) rt ctx rw o e1 (hg.trans hreg)]
      simp [Run.calls, withShutdown, clientOf]
  refine ⟨?_, ?_, ?_, ?_, ?_, hind⟩
  · rcases hreg : registerResult c ctx rw o with _ | e1
    · rcases selectCase_cases (selectWait rt) with hw | hw | hw
      · rw [serve_blocked c rt ctx rw o hreg hw]
        simp
      · rw [serve_cancelled c rt ctx rw o hreg hw]
        simp
      · rw [serve_graceful c rt ctx rw o hreg hw]
        simp
    · rw [serve_failed c rt ctx rw o e1 hreg]
      simp
  · intro E hreg
    rw [serve_failed c rt ctx rw o E hreg]
  · intro hreg hw
    rw [serve_cancelled c rt ctx rw o hreg hw]
  · intro hreg hw
    rw [serve_graceful c rt ctx rw o hreg hw]
  · intro hreg hw
    rw [serve_blocked c rt ctx rw o hreg hw]

/-- On test handlers: a refused registration is returned verbatim; a cancelled run and a
graceful run return nil, the latter even though GracefulShutdown reports an error. -/
theorem C8_error_iff_registration_error_witness :
    (registerResult (testHandler (some "registration refused") none) 7 9 4
        = some "registration refused" ∧
      (ServeControlStream (testHandler (some "registration refused") none) rtCancelled
        7 9 4).outcome = Outcome.returned (some "registration refused")) ∧
    (registerResult (testHandler none none) 7 9 4 = none ∧
      selectWait rtCancelled = some SelectCase.ctxDone ∧
      (ServeControlStream (testHandler none none) rtCancelled 7 9 4).outcome
        = Outcome.returned none) ∧
    (registerResult (testHandler none (some "deadline exceeded")) 7 9 4 = none ∧
      selectWait rtShutdown = some SelectCase.gracefulShutdownC ∧
      (ServeControlStream (testHandler none (some "deadline exceeded")) rtShutdown 7 9 4).outcome
        = Outcome.returned none) :=
  ⟨⟨rfl,
    (C8_error_iff_registration_error (testHandler (some "registration refused") none)
      rtCancelled 7 9 4).2.1 "registration refused" rfl⟩,
   ⟨rfl, rfl,
    (C8_error_iff_registration_error (testHandler none none) rtCancelled 7 9 4).2.2.1 rfl rfl⟩,
   ⟨rfl, rfl,
    (C8_error_iff_registration_error (testHandler none (some "deadline exceeded")) rtShutdown
      7 9 4).2.2.2.1 rfl rfl⟩⟩

/-! ## What IsStopped reports while an invocation runs -/

/-- C9, as stated, fails: on the graceful run of a fresh handler IsStopped already returns true
when sendUnregisteringEvent and GracefulShutdown are invoked, before the invocation returns. -/
theorem C9_flag_true_while_unregistering :
    IsStopped (testHandler none none) = false ∧
    (∃ s ∈ (ServeControlStream (testHandler none none) rtShutdown 7 9 4).trace,
      s.action = Action.sendUnregisteringEvent testObserver 3 ∧ IsStopped s.c = true) ∧
    (∃ s ∈ (ServeControlStream (testHandler none none) rtShutdown 7 9 4).trace,
      s.action = Action.GracefulShutdown 42 7 2000000000 ∧ IsStopped s.c = true) ∧
    ¬ (∀ s ∈ (ServeControlStream (testHandler none none) rtShutdown 7 9 4).trace,
      IsStopped s.c = false) := by
  rw [serve_graceful (testHandler none none) rtShutdown 7 9 4 rfl rfl]
  simp [IsStopped, testHandler, NewControlStream, clientOf, mockFactory, mockClient]

/-- C9, amended: a handler freshly returned by NewControlStream reports IsStopped false right
after construction, and during an invocation at every step up to and including the wait and the
write of the flag; on the registration-failure and cancellation paths it reports false at every
step and after the return.  IsStopped is true at a step exactly when registration succeeded,
the select took the gracefulShutdownC case, and the step is one of sendUnregisteringEvent,
GracefulShutdown, the completion log or Close; it is true after the invocation exactly when
registration succeeded and the select took the gracefulShutdownC case. -/
theorem C9_flag_during_invocation (d : RPCClientFunc) (obs : Observer)
    (fuse : ConnectedFuse) (cfg : NamedTunnelConfig) (idx : Nat) (f : Option RPCClientFunc)
    (ch : ShutdownChan) (gp : Duration) (rt : Runtime) (ctx : Context)
    (rw : Stream) (o : ConnectionOptions) :
    IsStopped (NewControlStream d obs fuse cfg idx f ch gp) = false ∧
    (∀ s ∈ (ServeControlStream (NewControlStream d obs fuse cfg idx f ch gp) rt ctx rw o).trace,
      (IsStopped s.c = true ↔
        (registerResult (NewControlStream d obs fuse cfg idx f ch gp) ctx rw o = none ∧
         selectWait rt = some SelectCase.gracefulShutdownC ∧
         s.action.kind ∈ [Kind.sendUnregisteringEvent, Kind.GracefulShutdown,
           Kind.logUnregistered, Kind.Close]))) ∧
    (IsStopped (ServeControlStream (NewControlStream d obs fuse cfg idx f ch gp) rt ctx rw o).final
        = true ↔
      (registerResult (NewControlStream d obs fuse cfg idx f ch gp) ctx rw o = none ∧
       selectWait rt = some SelectCase.gracefulShutdownC)) := by
  have h0 : (NewControlStream d obs fuse cfg idx f ch gp).stoppedGracefully = false := rfl
  refine ⟨h0, ?_⟩
  generalize NewControlStream d obs fuse cfg idx f ch gp = c at h0 ⊢
  rcases hreg : registerResult c ctx rw o with _ | e1
  · rcases selectCase_cases (selectWait rt) with hw | hw | hw
    · rw [serve_blocked c rt ctx rw o hreg hw]
      simp [IsStopped, h0, hw]
    · rw [serve_cancelled c rt ctx rw o hreg hw]
      simp [IsStopped, h0, hw]
    · rw [serve_graceful c rt ctx rw o hreg hw]
      simp [IsStopped, h0, hw, Action.kind]
  · rw [serve_failed c rt ctx rw o e1 hreg]
    simp [IsStopped, h0]

/-! ## Writes to the handler -/

/-- C10: in any invocation the flag stoppedGracefully is written at most once and the value
written is true; between two consecutive steps the flag differs only across that write, and
then it goes from false to true; every snapshot of the handler, and the handler as it is left,
agree with the initial handler on every other field (observer, connectedFuse, namedTunnelConfig,
connIndex, factory, gracefulShutdownC, gracePeriod).  So the flag is monotone: a handler on
which IsStopped is true before the invocation reports true at every step and afterwards, on
every path. -/
theorem C10_flag_written_once_monotone (c : controlStream) (rt : Runtime) (ctx : Context)
    (rw : Stream) (o : ConnectionOptions) :
    (ServeControlStream c rt ctx rw o).kinds.count Kind.setStoppedGracefully ≤ 1 ∧
    (∀ v, Action.setStoppedGracefully v ∈ (ServeControlStream c rt ctx rw o).calls →
      v = true) ∧
    (ServeControlStream c rt ctx rw o).observations.head? = some (IsStopped c) ∧
    List.Chain'
      (fun s t => IsStopped t.c ≠ IsStopped s.c →
        s.action = Action.setStoppedGracefully true ∧ IsStopped s.c = false ∧
          IsStopped t.c = true)
      ((ServeControlStream c rt ctx rw o).trace ++
        [⟨Action.Close (clientOf c ctx rw), (ServeControlStream c rt ctx rw o).final⟩]) ∧
    (∀ s ∈ (ServeControlStream c rt ctx rw o).trace, sameConfig s.c c) ∧
    sameConfig (ServeControlStream c rt ctx rw o).final c ∧
    (IsStopped c = true →
      IsStopped (ServeControlStream c rt ctx rw o).final = true ∧
      ∀ s ∈ (ServeControlStream c rt ctx rw o).trace, IsStopped s.c = true) := by
  rcases hreg : registerResult c ctx rw o with _ | e1
  · rcases selectCase_cases (selectWait rt) with hw | hw | hw
    · rw [serve_blocked c rt ctx rw o hreg hw]
      simp [Run.kinds, Run.calls, Run.observations, Action.kind, IsStopped, sameConfig]
    · rw [serve_cancelled c rt ctx rw o hreg hw]
      simp [Run.kinds, Run.calls, Run.observations, Action.kind, IsStopped, sameConfig]
    · rw [serve_graceful c rt ctx rw o hreg hw]
      simp [Run.kinds, Run.calls, Run.observations, Action.kind, IsStopped, sameConfig]
  · rw [serve_failed c rt ctx rw o e1 hreg]
    simp [Run.kinds, Run.calls, Run.observations, Action.kind, IsStopped, sameConfig]

end connection
